import Mathlib

/-!
# Verification of the checkout / purchase-reconciliation core

Shallow embedding of the purchase flow of the e-commerce backend:

* `ProductDAO` (`src/dao/product.dao.js`): `findById`, `updateStock`, `checkStock`
* `CartDAO` (`src/dao/cart.dao.js`): `findActiveByUser`, `updateProductQuantity`,
  `removeProduct`
* `ProductRepository.processStockForPurchase` (`src/repositories/product.repository.js`)
* `Ticket` model (`src/models/Ticket.model.js`): `calculateTotals`, unique-code save
* `TicketService` (`src/services/ticket.service.js`): `processPurchase`, `createTicket`,
  `_updateCartAfterPurchase`
* `CartController` (`src/controllers/cart.controller.js`): `purchaseCart`,
  `updateProductQuantity`, `removeFromCart`

JS numbers are modelled as `Rat` (prices, money) and `Int` (stock counters and
quantities, which the code can drive negative).  The MongoDB store is a record of
three lists (products, carts, tickets); each DAO call is a pure state transition.
Storage-layer errors that the per-item `try/catch` of the repository may intercept are
modelled by an explicit fault oracle `faults : Nat → Bool` saying for which product
id the first storage call of the per-item block throws.  Mutation order is recorded
in an explicit `Event` trace.
-/

/-- A product document (`src/models/Product.model.js`): `_id` (modelled as `Nat`),
`title`, `price`, `stock` (an `Int`: the `$inc` of the DAO can drive it negative),
`status`. -/
structure Product where
  pid : Nat
  title : String
  price : Rat
  stock : Int
  status : Bool
deriving Repr, DecidableEq

/-- One line item of a cart document: a product reference and a quantity. -/
structure CartItem where
  productId : Nat
  quantity : Int
deriving Repr, DecidableEq

/-- A cart document (`src/models/Cart.model.js`): `_id`, owning user, line items,
and whether `status` is `active`. -/
structure Cart where
  cid : Nat
  userId : Nat
  items : List CartItem
  active : Bool
deriving Repr, DecidableEq

/-- An entry of the `failedProducts` array of a ticket (`src/models/Ticket.model.js`):
the product *title* (a string, as in the source), the requested quantity, the
available stock observed, and a reason string. -/
structure FailedItem where
  product : String
  requestedQuantity : Int
  availableStock : Int
  reason : String
deriving Repr, DecidableEq

/-- An entry of the `products` array of a ticket: snapshot of id, title, price,
quantity and the stored `subtotal`. -/
structure TicketProduct where
  product : Nat
  title : String
  price : Rat
  quantity : Int
  subtotal : Rat
deriving Repr, DecidableEq

/-- The `totals` sub-document of a ticket. -/
structure Totals where
  subtotal : Rat
  tax : Rat
  shipping : Rat
  discount : Rat
  total : Rat
deriving Repr, DecidableEq

/-- A ticket document (`src/models/Ticket.model.js`).  Fields not touched by the
claims (`purchase_datetime`, `paymentInfo`, `shippingInfo`) are omitted. -/
structure Ticket where
  code : String
  purchaser : String
  user : Nat
  amount : Rat
  products : List TicketProduct
  failedProducts : List FailedItem
  status : String
  totals : Totals
deriving Repr, DecidableEq

/-- The persistent store: the three MongoDB collections the checkout flow touches. -/
structure DB where
  products : List Product
  carts : List Cart
  tickets : List Ticket
deriving Repr, DecidableEq

/-- JS truthiness of the value `product && product.stock >= requiredQuantity`:
`null` (here `none`) is falsy, a boolean is itself. -/
def jsTruthy : Option Bool → Bool
  | none => false
  | some b => b

/-- Embeds `ProductDAO.findById` (`src/dao/product.dao.js`): first product with the id,
or `null`. -/
def findProduct (db : DB) (pid : Nat) : Option Product :=
  db.products.find? (fun p => p.pid == pid)

/-- Embeds `ProductDAO.updateStock` (`src/dao/product.dao.js` line 97):
`findByIdAndUpdate(id, { $inc: { stock: -quantity } })` — an *unconditional*
decrement of the stock of the matching product; a no-op if the id is absent. -/
def updateStock (db : DB) (pid : Nat) (q : Int) : DB :=
  { db with products :=
      db.products.map (fun p => if p.pid == pid then { p with stock := p.stock - q } else p) }

/-- Embeds `ProductDAO.checkStock` (`src/dao/product.dao.js` lines 104–107):
`const product = await Product.findById(id); return product && product.stock >= requiredQuantity;`
— returns `null` (`none`) when the product does not exist, else the boolean. -/
def checkStock (db : DB) (pid : Nat) (q : Int) : Option Bool :=
  (findProduct db pid).map (fun p => decide (q ≤ p.stock))

/-- Embeds `CartDAO.findActiveByUser` (`src/dao/cart.dao.js`):
`Cart.findOne` on the user id and active status. -/
def findActiveByUser (db : DB) (u : Nat) : Option Cart :=
  db.carts.find? (fun c => c.userId == u && c.active)

/-- Embeds `CartDAO.removeProduct` (`src/dao/cart.dao.js` lines 195–201):
`$pull` of every line item of the cart whose `product` equals `productId`. -/
def removeProduct (db : DB) (cid : Nat) (pid : Nat) : DB :=
  { db with carts :=
      db.carts.map (fun c =>
        if c.cid == cid then
          { c with items := c.items.filter (fun it => it.productId != pid) }
        else c) }

/-- Set the quantity of the *first* matching line item (MongoDB positional `$`
operator used by `CartDAO.updateProductQuantity`). -/
def setFirstQuantity : List CartItem → Nat → Int → List CartItem
  | [], _, _ => []
  | it :: rest, pid, q =>
    if it.productId == pid then { it with quantity := q } :: rest
    else it :: setFirstQuantity rest pid q

/-- Embeds `CartDAO.updateProductQuantity` (`src/dao/cart.dao.js` lines 184–192):
a `findOneAndUpdate` with a positional `$set` on the quantity
— updates the first matching line of the matching cart (no-op when the cart has
no such line). -/
def cartUpdateProductQuantity (db : DB) (cid : Nat) (pid : Nat) (q : Int) : DB :=
  { db with carts :=
      db.carts.map (fun c =>
        if c.cid == cid && c.items.any (fun it => it.productId == pid) then
          { c with items := setFirstQuantity c.items pid q }
        else c) }

/-- A cart line item resolved against its product document, as produced by the
Mongoose `populate` of `products.product` on cart reads: the full product
snapshot together with the requested quantity. -/
structure CartEntry where
  product : Product
  quantity : Int
deriving Repr, DecidableEq

/-- Resolution of the line items of a cart to product snapshots (Mongoose `populate`).
`none` when some referenced product no longer exists — on that path the source
code dereferences `null` and the request fails, a case outside every claim. -/
def populateCart (db : DB) : List CartItem → Option (List CartEntry)
  | [] => some []
  | it :: rest =>
    match findProduct db it.productId, populateCart db rest with
    | some p, some es => some (⟨p, it.quantity⟩ :: es)
    | _, _ => none

/-- A `successful` entry of `processStockForPurchase`: the product snapshot, the
purchased quantity and the stored `subtotal = price * quantity`. -/
structure SuccessItem where
  product : Product
  quantity : Int
  subtotal : Rat
deriving Repr, DecidableEq

/-- The `results` object of `ProductRepository.processStockForPurchase`. -/
structure StockResults where
  successful : List SuccessItem
  failed : List FailedItem
  total : Rat
deriving Repr, DecidableEq

/-- One storage-layer mutation, recorded in execution order. -/
inductive Event where
  | decremented (pid : Nat) (q : Int)
  | ticketSaved (code : String)
  | cartRemoved (cid : Nat) (pid : Nat)
deriving Repr, DecidableEq

/-- The failed entry built by the per-item `catch` block of the repository:
product title, requested quantity, available stock 0, and the fixed reason text
`Error en el procesamiento`. -/
def mkErrorEntry (e : CartEntry) : FailedItem :=
  ⟨e.product.title, e.quantity, 0, "Error en el procesamiento"⟩

/-- The failed entry built on insufficient stock: availableStock is
`product?.stock || 0` re-read from the store at failure time. -/
def mkInsufficientEntry (db : DB) (e : CartEntry) : FailedItem :=
  ⟨e.product.title, e.quantity, ((findProduct db e.product.pid).map Product.stock).getD 0,
    "Stock insuficiente"⟩

/-- Embeds `ProductRepository.processStockForPurchase` (`src/repositories/product.repository.js`
lines 287–340), sequentialised: for each line item, if the storage layer faults
(`faults`) the per-item `catch` records a failed entry with reason
`Error en el procesamiento`; otherwise `checkStock` is consulted and on a truthy
answer `updateStock` decrements and a successful entry with
`subtotal = price * quantity` is recorded, else a failed entry with the re-read
available stock.  `total` accumulates the successful subtotals.  Items keep their
order (the `Promise.all` of the source preserves result order). -/
def processStockForPurchase (faults : Nat → Bool) :
    DB → List CartEntry → DB × List Event × StockResults
  | db, [] => (db, [], ⟨[], [], 0⟩)
  | db, e :: rest =>
    if faults e.product.pid then
      let r := processStockForPurchase faults db rest
      (r.1, r.2.1, ⟨r.2.2.successful, mkErrorEntry e :: r.2.2.failed, r.2.2.total⟩)
    else if jsTruthy (checkStock db e.product.pid e.quantity) then
      let r := processStockForPurchase faults (updateStock db e.product.pid e.quantity) rest
      (r.1, Event.decremented e.product.pid e.quantity :: r.2.1,
        ⟨⟨e.product, e.quantity, e.product.price * (e.quantity : Rat)⟩ :: r.2.2.successful,
          r.2.2.failed, e.product.price * (e.quantity : Rat) + r.2.2.total⟩)
    else
      let r := processStockForPurchase faults db rest
      (r.1, r.2.1, ⟨r.2.2.successful, mkInsufficientEntry db e :: r.2.2.failed, r.2.2.total⟩)

/-- Errors of the flow: a plain `new Error(...)` (no `statusCode`, the error
middleware maps it to 500), an `http-errors` `createError(status, message)`, and
a MongoDB duplicate-key error from the unique `code` index. -/
inductive PError where
  | plainError (msg : String)
  | httpError (status : Nat) (msg : String)
  | dupKey (code : String)
deriving Repr, DecidableEq

/-- HTTP status the error middleware (`src/middlewares/error.middleware.js`)
derives: `err.statusCode || err.status || 500`. -/
def PError.statusCode : PError → Nat
  | .plainError _ => 500
  | .httpError s _ => s
  | .dupKey _ => 500

/-- JS `x || 0` on a number: `0` is falsy, any other number is itself. -/
def jsOrZero (x : Rat) : Rat :=
  if x == 0 then 0 else x

/-- Embeds `ticketSchema.methods.calculateTotals` (`src/models/Ticket.model.js` lines
166–179): `subtotal` is the sum of the stored product subtotals, `tax` is 21% of
it, `total = subtotal + tax + shipping - discount`, and `amount` is overwritten
with `total`. -/
def calculateTotals (t : Ticket) : Ticket :=
  let subtotal := (t.products.map TicketProduct.subtotal).sum
  let tax := subtotal * ((21 : Rat) / 100)
  let total := subtotal + tax + t.totals.shipping - t.totals.discount
  { t with
    totals := ⟨subtotal, tax, jsOrZero t.totals.shipping, jsOrZero t.totals.discount, total⟩
    amount := total }

/-- The arguments `TicketService.createTicket` receives from `processPurchase`. -/
structure TicketInput where
  userId : Nat
  userEmail : String
  successfulProducts : List SuccessItem
  failedProducts : List FailedItem
  total : Rat
deriving Repr, DecidableEq

/-- The `ticketData` object built in `TicketService.createTicket` (before
`calculateTotals` runs): `amount` starts as the pre-tax `total`, `products` maps
the successful items to snapshots, `totals.shipping` and `totals.discount` take
their Mongoose defaults `0`. -/
def buildTicket (code : String) (inp : TicketInput) : Ticket :=
  { code := code
    purchaser := inp.userEmail
    user := inp.userId
    amount := inp.total
    products := inp.successfulProducts.map (fun s =>
      ⟨s.product.pid, s.product.title, s.product.price, s.quantity, s.subtotal⟩)
    failedProducts := inp.failedProducts
    status := "completed"
    totals := ⟨0, 0, 0, 0, 0⟩ }

/-- Embeds `ticket.save()` against the unique index on `code`: a duplicate-key error if
some persisted ticket already carries the code, else append. -/
def saveTicket (db : DB) (t : Ticket) : Except PError DB :=
  if db.tickets.any (fun u => u.code == t.code) then .error (.dupKey t.code)
  else .ok { db with tickets := db.tickets ++ [t] }

/-- Embeds `TicketService.createTicket` (`src/services/ticket.service.js` lines 60–105):
build the ticket data with the supplied generated `code`, run `calculateTotals`,
then `save()`.  A save error (in particular a code collision) is logged and
rethrown unchanged — there is no retry. -/
def createTicket (code : String) (db : DB) (inp : TicketInput) :
    Except PError (DB × Ticket) :=
  let t := calculateTotals (buildTicket code inp)
  (saveTicket db t).map (fun db2 => (db2, t))

/-- Modelled from the spec: the Ticket-Ledger persistence discipline of the spec
(§4.3 step 4, §7 `TicketCodeCollision`), which is *absent from the source*:
on a code collision, regenerate a fresh code and retry the write exactly once,
then escalate to a fatal internal error if the retry also collides.  `gen n` is
the n-th generated code. -/
def createTicketWithRetry (gen : Nat → String) (db : DB) (inp : TicketInput) :
    Except PError (DB × Ticket) :=
  match createTicket (gen 0) db inp with
  | .ok r => .ok r
  | .error (.dupKey _) =>
    match createTicket (gen 1) db inp with
    | .ok r => .ok r
    | .error _ => .error (.plainError "InternalError: ticket code collision")
  | .error e => .error e

/-- Modelled from the spec: `hasStock(productId, quantity) -> bool` of the
Inventory Ledger (§4.1), which "fails with `NotFound` if the product does not
exist" — unlike `ProductDAO.checkStock` in the source. -/
def hasStockSpec (db : DB) (pid : Nat) (q : Int) : Except PError Bool :=
  match findProduct db pid with
  | none => .error (.httpError 404 "Producto no encontrado")
  | some p => .ok (decide (q ≤ p.stock))

/-- Embeds `TicketService._updateCartAfterPurchase` (`src/services/ticket.service.js`
lines 211–223): remove every successfully purchased product from the cart
(the source dispatches the `removeProduct` calls with `Promise.all`; each is an
independent `$pull` on the same cart, serialised here in list order). -/
def updateCartAfterPurchase (db : DB) (cid : Nat) :
    List SuccessItem → DB × List Event
  | [] => (db, [])
  | s :: rest =>
    let r := updateCartAfterPurchase (removeProduct db cid s.product.pid) cid rest
    (r.1, Event.cartRemoved cid s.product.pid :: r.2)

/-- The value `TicketService.processPurchase` resolves with. -/
structure PurchaseResult where
  ticket : Option Ticket
  successfulProducts : List SuccessItem
  failedProducts : List FailedItem
  total : Rat
  message : String
deriving Repr, DecidableEq

/-- Embeds `TicketService._generatePurchaseMessage`. -/
def generateMessage (r : StockResults) : String :=
  if r.failed.length == 0 then
    "Compra procesada exitosamente. Todos los productos fueron adquiridos."
  else if r.successful.length == 0 then
    "No se pudo procesar la compra. Ningún producto tiene stock suficiente."
  else
    "Compra procesada parcialmente. " ++ toString r.successful.length ++
      " productos adquiridos, " ++ toString r.failed.length ++
      " productos sin stock suficiente."

/-- Embeds `TicketService.processPurchase` (`src/services/ticket.service.js` lines
14–53).  `code` is the value `Ticket.generateCode()` produces for this run
(`Date.now()`/`Math.random()` made explicit).  Returns the final store, the
ordered mutation trace, and either the resolved `PurchaseResult` or the thrown
error.  A missing or empty cart throws a plain
a plain `Error` reading `El carrito está vacío o no existe` before anything is touched.  A cart
line referencing a vanished product makes the source dereference `null`
(request fails); modelled as a plain error with no mutation. -/
def processPurchase (faults : Nat → Bool) (code : String) (db : DB)
    (userId : Nat) (userEmail : String) :
    DB × List Event × Except PError PurchaseResult :=
  match findActiveByUser db userId with
  | none => (db, [], .error (.plainError "El carrito está vacío o no existe"))
  | some cart =>
    if cart.items.isEmpty then
      (db, [], .error (.plainError "El carrito está vacío o no existe"))
    else
      match populateCart db cart.items with
      | none => (db, [], .error (.plainError "TypeError"))
      | some entries =>
        let pr := processStockForPurchase faults db entries
        if 0 < pr.2.2.successful.length then
          match createTicket code pr.1
              ⟨userId, userEmail, pr.2.2.successful, pr.2.2.failed, pr.2.2.total⟩ with
          | .error e => (pr.1, pr.2.1, .error e)
          | .ok (db2, t) =>
            let uc := updateCartAfterPurchase db2 cart.cid pr.2.2.successful
            (uc.1, pr.2.1 ++ Event.ticketSaved t.code :: uc.2,
              .ok ⟨some t, pr.2.2.successful, pr.2.2.failed, pr.2.2.total,
                generateMessage pr.2.2⟩)
        else
          (pr.1, pr.2.1,
            .ok ⟨none, pr.2.2.successful, pr.2.2.failed, pr.2.2.total,
              generateMessage pr.2.2⟩)

/-- Embeds `CartController.purchaseCart` (`src/controllers/cart.controller.js` lines
181–206): delegate to `processPurchase`; when the result carries no ticket,
`throwBadRequest` raises a 400; other errors are rethrown unchanged. -/
def purchaseCart (faults : Nat → Bool) (code : String) (db : DB)
    (userId : Nat) (userEmail : String) :
    DB × List Event × Except PError PurchaseResult :=
  let r := processPurchase faults code db userId userEmail
  match r.2.2 with
  | .error e => (r.1, r.2.1, .error e)
  | .ok res =>
    if res.ticket.isNone then
      (r.1, r.2.1, .error (.httpError 400
        "No se pudo procesar la compra. Verifica que tengas productos en el carrito con stock disponible."))
    else
      (r.1, r.2.1, .ok res)

/-- Embeds `CartController.updateProductQuantity` (`src/controllers/cart.controller.js`
lines 88–132): a quantity ≤ 0 is rejected with a 400 *before anything else*;
then the active cart, the line item, the product and its stock are checked, and
only then the DAO `$set` runs.  (The interpolated detail messages of the source are
modelled by their fixed leading text.) -/
def updateQuantityCtrl (db : DB) (userId : Nat) (pid : Nat) (quantity : Int) :
    DB × Except PError Cart :=
  if quantity ≤ 0 then
    (db, .error (.httpError 400 "La cantidad debe ser mayor a 0"))
  else
    match findActiveByUser db userId with
    | none => (db, .error (.httpError 404 "Carrito no encontrado"))
    | some cart =>
      if !(cart.items.any (fun it => it.productId == pid)) then
        (db, .error (.httpError 404 "Producto en el carrito no encontrado"))
      else
        match findProduct db pid with
        | none => (db, .error (.httpError 404 "Producto no encontrado"))
        | some p =>
          if p.stock < quantity then
            (db, .error (.httpError 400 "Stock insuficiente"))
          else
            let db2 := cartUpdateProductQuantity db cart.cid pid quantity
            (db2, .ok { cart with items := setFirstQuantity cart.items pid quantity })

/-- Embeds `CartController.removeFromCart` (`src/controllers/cart.controller.js` lines
136–160): after the cart and line-item existence checks, `$pull` the line items
of the product from the cart. -/
def removeFromCartCtrl (db : DB) (userId : Nat) (pid : Nat) :
    DB × Except PError Cart :=
  match findActiveByUser db userId with
  | none => (db, .error (.httpError 404 "Carrito no encontrado"))
  | some cart =>
    if !(cart.items.any (fun it => it.productId == pid)) then
      (db, .error (.httpError 404 "Producto en el carrito no encontrado"))
    else
      let db2 := removeProduct db cart.cid pid
      (db2, .ok { cart with items := cart.items.filter (fun it => it.productId != pid) })

/-! ## Basic facts about the embedded operations -/

lemma contains_eq_decide_mem (l : List Nat) (x : Nat) : l.contains x = decide (x ∈ l) := by
  induction l with
  | nil => rfl
  | cons a t ih => simp [List.contains_cons, ih]

lemma updateStock_carts (db : DB) (pid : Nat) (q : Int) :
    (updateStock db pid q).carts = db.carts := rfl

lemma updateStock_tickets (db : DB) (pid : Nat) (q : Int) :
    (updateStock db pid q).tickets = db.tickets := rfl

lemma updateStock_map_pid (db : DB) (pid : Nat) (q : Int) :
    (updateStock db pid q).products.map Product.pid = db.products.map Product.pid := by
  simp only [updateStock, List.map_map]
  apply List.map_congr_left
  intro p _
  dsimp only [Function.comp]
  split <;> rfl

lemma processStock_carts (faults : Nat → Bool) (db : DB) (l : List CartEntry) :
    (processStockForPurchase faults db l).1.carts = db.carts := by
  induction l generalizing db with
  | nil => rfl
  | cons e rest ih =>
    by_cases h1 : faults e.product.pid
    · simpa [processStockForPurchase, h1] using ih db
    · by_cases h2 : jsTruthy (checkStock db e.product.pid e.quantity)
      · simpa [processStockForPurchase, h1, h2] using
          ih (updateStock db e.product.pid e.quantity)
      · simpa [processStockForPurchase, h1, h2] using ih db

lemma processStock_tickets (faults : Nat → Bool) (db : DB) (l : List CartEntry) :
    (processStockForPurchase faults db l).1.tickets = db.tickets := by
  induction l generalizing db with
  | nil => rfl
  | cons e rest ih =>
    by_cases h1 : faults e.product.pid
    · simpa [processStockForPurchase, h1] using ih db
    · by_cases h2 : jsTruthy (checkStock db e.product.pid e.quantity)
      · simpa [processStockForPurchase, h1, h2] using
          ih (updateStock db e.product.pid e.quantity)
      · simpa [processStockForPurchase, h1, h2] using ih db

lemma processStock_subtotals (faults : Nat → Bool) (db : DB) (l : List CartEntry) :
    ∀ s ∈ (processStockForPurchase faults db l).2.2.successful,
      s.subtotal = s.product.price * (s.quantity : Rat) := by
  induction l generalizing db with
  | nil => simp [processStockForPurchase]
  | cons e rest ih =>
    by_cases h1 : faults e.product.pid
    · intro s hs
      simp only [processStockForPurchase, h1, if_true] at hs
      exact ih db s hs
    · by_cases h2 : jsTruthy (checkStock db e.product.pid e.quantity)
      · intro s hs
        simp [processStockForPurchase, h1, h2, List.mem_cons] at hs
        rcases hs with hs | hs
        · subst hs; rfl
        · exact ih (updateStock db e.product.pid e.quantity) s hs
      · intro s hs
        simp only [processStockForPurchase, h1, h2, if_true, if_false] at hs
        exact ih db s hs

lemma processStock_total (faults : Nat → Bool) (db : DB) (l : List CartEntry) :
    (processStockForPurchase faults db l).2.2.total =
      ((processStockForPurchase faults db l).2.2.successful.map SuccessItem.subtotal).sum := by
  induction l generalizing db with
  | nil => simp [processStockForPurchase]
  | cons e rest ih =>
    by_cases h1 : faults e.product.pid
    · simpa [processStockForPurchase, h1] using ih db
    · by_cases h2 : jsTruthy (checkStock db e.product.pid e.quantity)
      · simpa [processStockForPurchase, h1, h2] using
          ih (updateStock db e.product.pid e.quantity)
      · simpa [processStockForPurchase, h1, h2] using ih db

lemma processStock_succ_pids (faults : Nat → Bool) (db : DB) (l : List CartEntry) :
    ∀ s ∈ (processStockForPurchase faults db l).2.2.successful,
      s.product.pid ∈ l.map (fun e => e.product.pid) := by
  induction l generalizing db with
  | nil => simp [processStockForPurchase]
  | cons e rest ih =>
    by_cases h1 : faults e.product.pid
    · intro s hs
      simp only [processStockForPurchase, h1, if_true] at hs
      exact List.mem_cons_of_mem _ (ih db s hs)
    · by_cases h2 : jsTruthy (checkStock db e.product.pid e.quantity)
      · intro s hs
        simp [processStockForPurchase, h1, h2, List.mem_cons] at hs
        rcases hs with hs | hs
        · subst hs; simp
        · exact List.mem_cons_of_mem _
            (ih (updateStock db e.product.pid e.quantity) s hs)
      · intro s hs
        simp only [processStockForPurchase, h1, h2, if_true, if_false] at hs
        exact List.mem_cons_of_mem _ (ih db s hs)

lemma processStock_no_success (faults : Nat → Bool) (db : DB) (l : List CartEntry)
    (h : (processStockForPurchase faults db l).2.2.successful = []) :
    (processStockForPurchase faults db l).1 = db ∧
      (processStockForPurchase faults db l).2.1 = [] ∧
      (processStockForPurchase faults db l).2.2.total = 0 := by
  induction l generalizing db with
  | nil => exact ⟨rfl, rfl, rfl⟩
  | cons e rest ih =>
    by_cases h1 : faults e.product.pid
    · simp only [processStockForPurchase, h1, if_true] at h ⊢
      exact ih db h
    · by_cases h2 : jsTruthy (checkStock db e.product.pid e.quantity)
      · simp [processStockForPurchase, h1, h2] at h
      · simp only [processStockForPurchase, h1, h2, if_true, if_false] at h ⊢
        exact ih db h

lemma processStock_append (faults : Nat → Bool) (db : DB) (l1 l2 : List CartEntry) :
    processStockForPurchase faults db (l1 ++ l2) =
      ((processStockForPurchase faults (processStockForPurchase faults db l1).1 l2).1,
        (processStockForPurchase faults db l1).2.1 ++
          (processStockForPurchase faults (processStockForPurchase faults db l1).1 l2).2.1,
        ⟨(processStockForPurchase faults db l1).2.2.successful ++
            (processStockForPurchase faults (processStockForPurchase faults db l1).1 l2).2.2.successful,
          (processStockForPurchase faults db l1).2.2.failed ++
            (processStockForPurchase faults (processStockForPurchase faults db l1).1 l2).2.2.failed,
          (processStockForPurchase faults db l1).2.2.total +
            (processStockForPurchase faults (processStockForPurchase faults db l1).1 l2).2.2.total⟩) := by
  induction l1 generalizing db with
  | nil => simp [processStockForPurchase]
  | cons e rest ih =>
    by_cases h1 : faults e.product.pid
    · simp [processStockForPurchase, h1, ih db]
    · by_cases h2 : jsTruthy (checkStock db e.product.pid e.quantity)
      · simp [processStockForPurchase, h1, h2, ih (updateStock db e.product.pid e.quantity),
          add_assoc]
      · simp [processStockForPurchase, h1, h2, ih db]

lemma removeProduct_products (db : DB) (cid pid : Nat) :
    (removeProduct db cid pid).products = db.products := rfl

lemma removeProduct_tickets (db : DB) (cid pid : Nat) :
    (removeProduct db cid pid).tickets = db.tickets := rfl

lemma updateCart_products (db : DB) (cid : Nat) (l : List SuccessItem) :
    (updateCartAfterPurchase db cid l).1.products = db.products := by
  induction l generalizing db with
  | nil => rfl
  | cons s rest ih => simpa [updateCartAfterPurchase] using ih (removeProduct db cid s.product.pid)

lemma updateCart_tickets (db : DB) (cid : Nat) (l : List SuccessItem) :
    (updateCartAfterPurchase db cid l).1.tickets = db.tickets := by
  induction l generalizing db with
  | nil => rfl
  | cons s rest ih => simpa [updateCartAfterPurchase] using ih (removeProduct db cid s.product.pid)

lemma updateCart_events (db : DB) (cid : Nat) (l : List SuccessItem) :
    (updateCartAfterPurchase db cid l).2 =
      l.map (fun s => Event.cartRemoved cid s.product.pid) := by
  induction l generalizing db with
  | nil => rfl
  | cons s rest ih => simp [updateCartAfterPurchase, ih (removeProduct db cid s.product.pid)]

lemma updateCart_carts (db : DB) (cid : Nat) (l : List SuccessItem) :
    (updateCartAfterPurchase db cid l).1.carts =
      db.carts.map (fun c =>
        if c.cid == cid then
          { c with items := c.items.filter (fun it =>
              !((l.map (fun s => s.product.pid)).contains it.productId)) }
        else c) := by
  induction l generalizing db with
  | nil =>
    have hfun : (fun c : Cart =>
        if c.cid == cid then
          { c with items := c.items.filter (fun it =>
              !((([] : List SuccessItem).map (fun s => s.product.pid)).contains it.productId)) }
        else c) = fun c => c := by
      funext c
      cases hc : c.cid == cid <;> simp [hc, List.filter_true]
    rw [hfun]
    simp [updateCartAfterPurchase]
  | cons s rest ih =>
    have step := ih (removeProduct db cid s.product.pid)
    simp only [updateCartAfterPurchase] at *
    rw [step]
    simp only [removeProduct, List.map_map]
    have hfun : ((fun c : Cart =>
        if c.cid == cid then
          { c with items := c.items.filter (fun it =>
              !((rest.map (fun s => s.product.pid)).contains it.productId)) }
        else c) ∘ (fun c : Cart =>
        if c.cid == cid then
          { c with items := c.items.filter (fun it => it.productId != s.product.pid) }
        else c)) = fun c : Cart =>
        if c.cid == cid then
          { c with items := c.items.filter (fun it =>
              !(((s :: rest).map (fun s => s.product.pid)).contains it.productId)) }
        else c := by
      funext c
      cases hc : c.cid == cid
      · simp [Function.comp, hc]
      · simp only [Function.comp, hc, if_true]
        rw [List.filter_filter]
        congr 1
        apply List.filter_congr
        intro it _
        simp only [List.map_cons, List.contains_cons, Bool.not_or, Bool.and_comm, bne]
    rw [hfun]

lemma populate_pids (db : DB) (items : List CartItem) (entries : List CartEntry)
    (h : populateCart db items = some entries) :
    entries.map (fun e => e.product.pid) = items.map CartItem.productId := by
  induction items generalizing entries with
  | nil =>
    simp only [populateCart, Option.some_inj] at h
    subst h; rfl
  | cons it rest ih =>
    simp only [populateCart] at h
    cases hf : findProduct db it.productId with
    | none => rw [hf] at h; simp at h
    | some p =>
      rw [hf] at h
      cases hr : populateCart db rest with
      | none => rw [hr] at h; simp at h
      | some es =>
        rw [hr] at h
        simp only [Option.some_inj] at h
        subst h
        have hpid : p.pid = it.productId := by
          have := List.find?_some hf
          simpa using this
        simp [ih es hr, hpid]

lemma stocks_nonneg_update (l : List Product) (pid : Nat) (q : Int)
    (hnd : (l.map Product.pid).Nodup)
    (hnn : ∀ p ∈ l, 0 ≤ p.stock)
    (p0 : Product)
    (hf : l.find? (fun p => p.pid == pid) = some p0)
    (hq : q ≤ p0.stock) :
    ∀ p ∈ l.map (fun p => if p.pid == pid then { p with stock := p.stock - q } else p),
      0 ≤ p.stock := by
  induction l with
  | nil => simp at hf
  | cons a t ih =>
    simp only [List.map_cons, List.nodup_cons, List.mem_map] at hnd
    cases ha : a.pid == pid
    · rw [List.find?_cons_of_neg _ (by simp [ha])] at hf
      intro p hp
      simp only [List.map_cons, List.mem_cons] at hp
      rcases hp with hp | hp
      · subst hp
        simp only [ha, if_false, Bool.false_eq_true]
        exact hnn a (List.mem_cons_self a t)
      · exact ih hnd.2 (fun x hx => hnn x (List.mem_cons_of_mem _ hx)) hf p hp
    · rw [List.find?_cons_of_pos _ (by simp_all)] at hf
      have hap : a = p0 := by simpa using hf
      subst hap
      have hapid : a.pid = pid := by simpa using ha
      intro p hp
      simp only [List.map_cons, List.mem_cons] at hp
      rcases hp with hp | hp
      · subst hp
        simp only [ha, if_true]
        simpa using sub_nonneg.mpr hq
      · rcases List.mem_map.mp hp with ⟨x, hx, hxe⟩
        have hxpid : (x.pid == pid) = false := by
          cases hxp : x.pid == pid
          · rfl
          · exfalso
            exact hnd.1 ⟨x, hx, by rw [hapid]; simpa using hxp⟩
        rw [hxpid] at hxe
        simp only [Bool.false_eq_true, if_false] at hxe
        subst hxe
        exact hnn x (List.mem_cons_of_mem _ hx)

lemma checkStock_truthy (db : DB) (pid : Nat) (q : Int)
    (h : jsTruthy (checkStock db pid q) = true) :
    ∃ p0, db.products.find? (fun p => p.pid == pid) = some p0 ∧ q ≤ p0.stock := by
  cases hf : findProduct db pid with
  | none =>
    rw [checkStock, hf] at h
    simp [jsTruthy] at h
  | some p0 =>
    rw [checkStock, hf] at h
    simp [jsTruthy] at h
    exact ⟨p0, hf, h⟩

lemma stocksNonneg_updateStock (db : DB) (pid : Nat) (q : Int)
    (hnd : (db.products.map Product.pid).Nodup)
    (hnn : ∀ p ∈ db.products, 0 ≤ p.stock)
    (hc : jsTruthy (checkStock db pid q) = true) :
    ∀ p ∈ (updateStock db pid q).products, 0 ≤ p.stock := by
  obtain ⟨p0, hf, hq⟩ := checkStock_truthy db pid q hc
  exact stocks_nonneg_update db.products pid q hnd hnn p0 hf hq

/-- The ticket `processPurchase` persists for a run whose stock results are `sr`:
the `ticketData` of `createTicket` after `calculateTotals`. -/
def purchasedTicket (code : String) (u : Nat) (em : String) (sr : StockResults) : Ticket :=
  calculateTotals (buildTicket code ⟨u, em, sr.successful, sr.failed, sr.total⟩)

lemma processPurchase_success_eq (faults : Nat → Bool) (code : String) (db : DB)
    (u : Nat) (em : String) (cart : Cart) (entries : List CartEntry)
    (db1 : DB) (evs1 : List Event) (sr : StockResults)
    (hcart : findActiveByUser db u = some cart)
    (hne : cart.items.isEmpty = false)
    (hpop : populateCart db cart.items = some entries)
    (hsr : processStockForPurchase faults db entries = (db1, evs1, sr))
    (hsucc : sr.successful ≠ [])
    (hfresh : db.tickets.any (fun t => t.code == code) = false) :
    processPurchase faults code db u em =
      ((updateCartAfterPurchase
          { db1 with tickets := db1.tickets ++ [purchasedTicket code u em sr] } cart.cid
          sr.successful).1,
        evs1 ++ Event.ticketSaved code ::
          sr.successful.map (fun s => Event.cartRemoved cart.cid s.product.pid),
        .ok ⟨some (purchasedTicket code u em sr), sr.successful, sr.failed, sr.total,
          generateMessage sr⟩) := by
  have hlen : 0 < sr.successful.length := List.length_pos.mpr hsucc
  have htick : db1.tickets = db.tickets := by
    have h := processStock_tickets faults db entries
    rw [hsr] at h
    exact h
  have hany : (db1.tickets.any fun t' => t'.code ==
      (calculateTotals (buildTicket code
        ⟨u, em, sr.successful, sr.failed, sr.total⟩)).code) = false := by
    rw [htick]
    exact hfresh
  have hsave : createTicket code db1 ⟨u, em, sr.successful, sr.failed, sr.total⟩ =
      .ok ({ db1 with tickets := db1.tickets ++ [purchasedTicket code u em sr] },
        purchasedTicket code u em sr) := by
    simp only [createTicket, saveTicket, purchasedTicket, hany, Bool.false_eq_true,
      if_false, Except.map]
  have hpcode : (purchasedTicket code u em sr).code = code := rfl
  simp only [processPurchase, hcart, hne, hpop, hsr, Bool.false_eq_true, if_false, hlen,
    if_true, hsave, hpcode, updateCart_events]

lemma succ_pids_not_contains (faults : Nat → Bool) (db : DB) (rest : List CartEntry)
    (x : Nat) (hx : x ∉ rest.map (fun e => e.product.pid)) :
    (((processStockForPurchase faults db rest).2.2.successful.map
        (fun s => s.product.pid)).contains x) = false := by
  rw [contains_eq_decide_mem]
  simp only [decide_eq_false_iff_not]
  intro hmem
  rcases List.mem_map.mp hmem with ⟨s, hs, hspid⟩
  have hin := processStock_succ_pids faults db rest s hs
  rw [hspid] at hin
  exact hx hin

lemma failed_corresponds (faults : Nat → Bool) (db : DB) (l : List CartEntry)
    (hnd : (l.map (fun e => e.product.pid)).Nodup) :
    (l.filter (fun e =>
        !(((processStockForPurchase faults db l).2.2.successful.map
            (fun s => s.product.pid)).contains e.product.pid))).map
        (fun e => (e.product.title, e.quantity))
      = (processStockForPurchase faults db l).2.2.failed.map
          (fun f => (f.product, f.requestedQuantity)) := by
  induction l generalizing db with
  | nil => simp [processStockForPurchase]
  | cons e rest ih =>
    simp only [List.map_cons, List.nodup_cons] at hnd
    obtain ⟨he, hnd'⟩ := hnd
    by_cases h1 : faults e.product.pid
    · simp only [processStockForPurchase, h1, if_true]
      have hc := succ_pids_not_contains faults db rest e.product.pid he
      rw [List.filter_cons]
      simp only [hc, Bool.not_false, if_true, List.map_cons]
      rw [ih db hnd']
      rfl
    · by_cases h2 : jsTruthy (checkStock db e.product.pid e.quantity)
      · simp only [processStockForPurchase, h1, h2, Bool.false_eq_true, if_false, if_true]
        rw [List.filter_cons]
        have hcself : ((((⟨e.product, e.quantity,
            e.product.price * (e.quantity : Rat)⟩ : SuccessItem) ::
              (processStockForPurchase faults (updateStock db e.product.pid e.quantity)
                rest).2.2.successful).map (fun s => s.product.pid)).contains
              e.product.pid) = true := by
          simp [List.contains_cons]
        simp only [hcself, Bool.not_true, Bool.false_eq_true, if_false]
        have hcongr : rest.filter (fun x =>
            !(((⟨e.product, e.quantity, e.product.price * (e.quantity : Rat)⟩ ::
                (processStockForPurchase faults (updateStock db e.product.pid e.quantity)
                  rest).2.2.successful).map (fun s => s.product.pid)).contains
                x.product.pid)) =
            rest.filter (fun x =>
              !((((processStockForPurchase faults (updateStock db e.product.pid e.quantity)
                  rest).2.2.successful).map (fun s => s.product.pid)).contains
                  x.product.pid)) := by
          apply List.filter_congr
          intro x hx
          have hne : (x.product.pid == e.product.pid) = false := by
            cases hxe : x.product.pid == e.product.pid
            · rfl
            · exfalso
              apply he
              have : x.product.pid = e.product.pid := by simpa using hxe
              rw [← this]
              exact List.mem_map.mpr ⟨x, hx, rfl⟩
          simp only [List.map_cons, List.contains_cons, hne, Bool.false_or]
        rw [hcongr, ih (updateStock db e.product.pid e.quantity) hnd']
      · simp only [processStockForPurchase, h1, h2, Bool.false_eq_true, if_false]
        have hc := succ_pids_not_contains faults db rest e.product.pid he
        rw [List.filter_cons]
        simp only [hc, Bool.not_false, if_true, List.map_cons]
        rw [ih db hnd']
        rfl

/-- Decidable equality of `Except` results, used to evaluate the embedded
operations on concrete inputs. -/
instance instDecEqExcept {e a : Type} [DecidableEq e] [DecidableEq a] :
    DecidableEq (Except e a)
  | .error x, .error y =>
    if h : x = y then .isTrue (congrArg Except.error h)
    else .isFalse (by intro hh; injection hh; exact h (by assumption))
  | .error _, .ok _ => .isFalse (by intro hh; exact Except.noConfusion hh)
  | .ok _, .error _ => .isFalse (by intro hh; exact Except.noConfusion hh)
  | .ok x, .ok y =>
    if h : x = y then .isTrue (congrArg Except.ok h)
    else .isFalse (by intro hh; injection hh; exact h (by assumption))

/-! ## Concrete fixtures used by witnesses and counterexamples -/

/-- No storage faults. -/
def faults0 : Nat → Bool := fun _ => false

/-- Product A: price 10, stock 5. -/
def pA : Product := ⟨1, "A", 10, 5, true⟩

/-- Product B: price 7, stock 3. -/
def pB : Product := ⟨2, "B", 7, 3, true⟩

/-- A cart requesting 2×A (in stock) and 10×B (insufficient). -/
def cart0 : Cart := ⟨1, 7, [⟨1, 2⟩, ⟨2, 10⟩], true⟩

/-- The store for the partial-success scenario. -/
def db0 : DB := ⟨[pA, pB], [cart0], []⟩

/-- Line items of `cart0` resolved to product snapshots. -/
def entries0 : List CartEntry := [⟨pA, 2⟩, ⟨pB, 10⟩]

/-- The store after stock resolution of `entries0` in `db0`. -/
def db1w : DB := ⟨[⟨1, "A", 10, 3, true⟩, pB], [cart0], []⟩

/-- The mutation trace of stock resolution of `entries0` in `db0`. -/
def evs1w : List Event := [.decremented 1 2]

/-- The stock results of `entries0` in `db0` (the money fields are kept in the
exact arithmetic form the run produces; they evaluate to 20). -/
def srw : StockResults :=
  ⟨[⟨pA, 2, pA.price * ((2 : Int) : Rat)⟩],
    [⟨"B", 10, 3, "Stock insuficiente"⟩],
    pA.price * ((2 : Int) : Rat) + 0⟩

/-- A product with stock 1 (for the unconditional-decrement counterexample). -/
def pLow : Product := ⟨3, "C", 5, 1, true⟩

/-- Store holding only `pLow`. -/
def dbLow : DB := ⟨[pLow], [], []⟩

/-- Store with an empty active cart for user 7. -/
def dbEmptyCart : DB := ⟨[], [⟨1, 7, [], true⟩], []⟩

/-- A product with stock 0 for the total-failure scenario. -/
def pZero : Product := ⟨1, "A", 10, 0, true⟩

/-- Cart requesting 1×`pZero`. -/
def cartZ : Cart := ⟨1, 7, [⟨1, 1⟩], true⟩

/-- Store for the total-failure scenario. -/
def dbZ : DB := ⟨[pZero], [cartZ], []⟩

/-- Line items of `cartZ` resolved. -/
def entriesZ : List CartEntry := [⟨pZero, 1⟩]

/-- Stock results of the total-failure scenario: nothing successful. -/
def srZ : StockResults := ⟨[], [⟨"A", 1, 0, "Stock insuficiente"⟩], 0⟩

/-- A code generator whose first code collides with `dbC7` and whose second is fresh. -/
def genC7 : Nat → String := fun n => if n == 0 then "TICKET-A" else "TICKET-B"

/-- A previously persisted ticket carrying code `TICKET-A`. -/
def tPrev : Ticket := ⟨"TICKET-A", "x@y.z", 1, 0, [], [], "completed", ⟨0, 0, 0, 0, 0⟩⟩

/-- Store already holding `tPrev`. -/
def dbC7 : DB := ⟨[], [], [tPrev]⟩

/-- Ticket input for the collision scenario. -/
def inpC7 : TicketInput := ⟨1, "x@y.z", [⟨pA, 1, 10⟩], [], 10⟩

/-- The empty store (no products). -/
def dbNone : DB := ⟨[], [], []⟩

/-- Faults oracle that fails exactly product id 9. -/
def faults9 : Nat → Bool := fun pid => pid == 9

/-- A cart entry whose stock resolution hits a storage fault under `faults9`. -/
def eFault : CartEntry := ⟨⟨9, "F", 1, 5, true⟩, 1⟩

/-! ## Claims -/

/-- C1, counterexample: the inventory decrement `updateStock` is *not* a
conditional decrement — on a product with stock 1, decrementing by 2 succeeds
(no `InsufficientStock` failure; `updateStock` has no failure outcome at all)
and leaves the stock negative, refuting "the stock is reduced by q only if
s ≥ q … and it fails with InsufficientStock otherwise". -/
theorem c1_counterexample :
    pLow.stock < 2
    ∧ updateStock dbLow 3 2 = ⟨[⟨3, "C", 5, -1, true⟩], [], []⟩
    ∧ ((updateStock dbLow 3 2).products.any (fun p => decide (p.stock < 0))) = true := by
  decide

/-- C1, amended: `updateStock` decrements unconditionally and is guarded only by
the *separate* `checkStock` read (not a single atomic compare-and-decrement).
Under the sequential execution modelled here, `processStockForPurchase`
decrements a product only after a passing `checkStock` read on the current
state, so from a store with distinct product ids and non-negative stocks, all
stocks remain non-negative. -/
theorem c1_amended (faults : Nat → Bool) (db : DB) (entries : List CartEntry)
    (hnd : (db.products.map Product.pid).Nodup)
    (hnn : ∀ p ∈ db.products, 0 ≤ p.stock) :
    ∀ p ∈ (processStockForPurchase faults db entries).1.products, 0 ≤ p.stock := by
  induction entries generalizing db with
  | nil => simpa [processStockForPurchase] using hnn
  | cons e rest ih =>
    by_cases h1 : faults e.product.pid
    · intro p hp
      simp only [processStockForPurchase, h1, if_true] at hp
      exact ih db hnd hnn p hp
    · by_cases h2 : jsTruthy (checkStock db e.product.pid e.quantity)
      · intro p hp
        simp only [processStockForPurchase, h1, h2, Bool.false_eq_true, if_false,
          if_true] at hp
        exact ih (updateStock db e.product.pid e.quantity)
          (by rw [updateStock_map_pid]; exact hnd)
          (stocksNonneg_updateStock db e.product.pid e.quantity hnd hnn h2) p hp
      · intro p hp
        simp only [processStockForPurchase, h1, h2, Bool.false_eq_true, if_false] at hp
        exact ih db hnd hnn p hp

/-- C1, witness: the amended theorem applied to the concrete partial-success
scenario. -/
theorem c1_amended_witness :
    ((processStockForPurchase faults0 db0 entries0).1.products.all
      (fun p => decide (0 ≤ p.stock))) = true := by
  have h := c1_amended faults0 db0 entries0 (by decide) (by decide)
  exact List.all_eq_true.mpr (fun p hp => decide_eq_true (h p hp))

/-- C5: when the user has no active cart, or the active cart has no line items,
`processPurchase` throws the empty-cart error with the store untouched and no
mutation events — before any inventory, ticket, or cart write. -/
theorem c5_empty_cart (faults : Nat → Bool) (code : String) (db : DB) (u : Nat)
    (em : String)
    (h : ((findActiveByUser db u).map (fun c => c.items.isEmpty)).getD true = true) :
    processPurchase faults code db u em =
      (db, [], .error (.plainError "El carrito está vacío o no existe")) := by
  cases hf : findActiveByUser db u with
  | none => simp [processPurchase, hf]
  | some c =>
    rw [hf] at h
    have h2 : c.items.isEmpty = true := by simpa using h
    simp [processPurchase, hf, h2]

/-- C5, witness: the empty-cart theorem on a store whose user-7 cart is empty. -/
theorem c5_empty_cart_witness :
    processPurchase faults0 "T" dbEmptyCart 7 "a@b.c" =
      (dbEmptyCart, [], .error (.plainError "El carrito está vacío o no existe")) :=
  c5_empty_cart faults0 "T" dbEmptyCart 7 "a@b.c" (by decide)

/-- C6: a per-item storage fault is downgraded to a failed entry with reason
`Error en el procesamiento` and `availableStock 0` (`mkErrorEntry`), and the
whole operation is unaffected otherwise: final store, successful set and total
are exactly those of the run without the faulted item, and the failed entries
of the other items are unchanged around the inserted one. -/
theorem c6_fault_isolated (faults : Nat → Bool) (db : DB) (pre post : List CartEntry)
    (e : CartEntry) (hf : faults e.product.pid = true) :
    (processStockForPurchase faults db (pre ++ e :: post)).1 =
        (processStockForPurchase faults db (pre ++ post)).1
    ∧ (processStockForPurchase faults db (pre ++ e :: post)).2.2.successful =
        (processStockForPurchase faults db (pre ++ post)).2.2.successful
    ∧ (processStockForPurchase faults db (pre ++ e :: post)).2.2.total =
        (processStockForPurchase faults db (pre ++ post)).2.2.total
    ∧ (processStockForPurchase faults db (pre ++ e :: post)).2.2.failed =
        (processStockForPurchase faults db pre).2.2.failed ++ mkErrorEntry e ::
          (processStockForPurchase faults
            (processStockForPurchase faults db pre).1 post).2.2.failed
    ∧ (processStockForPurchase faults db (pre ++ post)).2.2.failed =
        (processStockForPurchase faults db pre).2.2.failed ++
          (processStockForPurchase faults
            (processStockForPurchase faults db pre).1 post).2.2.failed := by
  have ha := processStock_append faults db pre (e :: post)
  have hb := processStock_append faults db pre post
  refine ⟨?_, ?_, ?_, ?_, ?_⟩
  · rw [ha, hb]; simp [processStockForPurchase, hf]
  · rw [ha, hb]; simp [processStockForPurchase, hf]
  · rw [ha, hb]; simp [processStockForPurchase, hf]
  · rw [ha]; simp [processStockForPurchase, hf]
  · rw [hb]

/-- C6, witness: the fault-isolation theorem on a concrete run where product 9
faults between the purchases of A and B. -/
theorem c6_fault_isolated_witness :
    (processStockForPurchase faults9 db0 ([⟨pA, 2⟩] ++ eFault :: [⟨pB, 10⟩])).1 =
        (processStockForPurchase faults9 db0 ([⟨pA, 2⟩] ++ [⟨pB, 10⟩])).1
    ∧ (processStockForPurchase faults9 db0 ([⟨pA, 2⟩] ++ eFault :: [⟨pB, 10⟩])).2.2.successful =
        (processStockForPurchase faults9 db0 ([⟨pA, 2⟩] ++ [⟨pB, 10⟩])).2.2.successful
    ∧ (processStockForPurchase faults9 db0 ([⟨pA, 2⟩] ++ eFault :: [⟨pB, 10⟩])).2.2.total =
        (processStockForPurchase faults9 db0 ([⟨pA, 2⟩] ++ [⟨pB, 10⟩])).2.2.total
    ∧ (processStockForPurchase faults9 db0 ([⟨pA, 2⟩] ++ eFault :: [⟨pB, 10⟩])).2.2.failed =
        (processStockForPurchase faults9 db0 [⟨pA, 2⟩]).2.2.failed ++ mkErrorEntry eFault ::
          (processStockForPurchase faults9
            (processStockForPurchase faults9 db0 [⟨pA, 2⟩]).1 [⟨pB, 10⟩]).2.2.failed
    ∧ (processStockForPurchase faults9 db0 ([⟨pA, 2⟩] ++ [⟨pB, 10⟩])).2.2.failed =
        (processStockForPurchase faults9 db0 [⟨pA, 2⟩]).2.2.failed ++
          (processStockForPurchase faults9
            (processStockForPurchase faults9 db0 [⟨pA, 2⟩]).1 [⟨pB, 10⟩]).2.2.failed :=
  c6_fault_isolated faults9 db0 [⟨pA, 2⟩] [⟨pB, 10⟩] eFault (by decide)

/-- C7, counterexample: with a collision on the first generated code and a fresh
second code available, `createTicket` surfaces the duplicate-key error
immediately — it does not regenerate and retry (the spec-modelled
`createTicketWithRetry` would have succeeded). -/
theorem c7_counterexample :
    createTicket (genC7 0) dbC7 inpC7 = .error (.dupKey "TICKET-A")
    ∧ (dbC7.tickets.all (fun t => !(t.code == genC7 1))) = true
    ∧ (createTicketWithRetry genC7 dbC7 inpC7).isOk = true := by
  decide

/-- C7, amended: there is no retry — whenever the generated code already exists
among the persisted tickets, `createTicket` fails at once with the duplicate-key
error from the unique `code` index. -/
theorem c7_amended (db : DB) (code : String) (inp : TicketInput)
    (h : db.tickets.any (fun t => t.code == code) = true) :
    createTicket code db inp = .error (.dupKey code) := by
  have hc : (calculateTotals (buildTicket code inp)).code = code := rfl
  simp only [createTicket, saveTicket, hc, h, if_true, Except.map]

/-- C7, witness: the no-retry theorem at the concrete collision scenario. -/
theorem c7_amended_witness :
    createTicket "TICKET-A" dbC7 inpC7 = .error (.dupKey "TICKET-A") :=
  c7_amended dbC7 "TICKET-A" inpC7 (by decide)

/-- C8, counterexample: setting the quantity of a line item to 0 is *not* equivalent
to removing it — the controller rejects the request with a 400 and leaves the
cart unchanged, whereas `removeFromCart` deletes the line. -/
theorem c8_counterexample :
    updateQuantityCtrl db0 7 1 0 =
        (db0, .error (.httpError 400 "La cantidad debe ser mayor a 0"))
    ∧ (removeFromCartCtrl db0 7 1).1.carts = [⟨1, 7, [⟨2, 10⟩], true⟩]
    ∧ (removeFromCartCtrl db0 7 1).2 = .ok ⟨1, 7, [⟨2, 10⟩], true⟩
    ∧ (updateQuantityCtrl db0 7 1 0).1.carts = [⟨1, 7, [⟨1, 2⟩, ⟨2, 10⟩], true⟩] := by
  decide

/-- C8, amended: a set-quantity request with quantity ≤ 0 is rejected up front
with the 400 error `La cantidad debe ser mayor a 0` and the store is left
unchanged (so the cart never acquires a zero- or negative-quantity line through
this operation); removal requires the dedicated remove endpoint. -/
theorem c8_amended (db : DB) (u : Nat) (pid : Nat) (q : Int) (h : q ≤ 0) :
    updateQuantityCtrl db u pid q =
      (db, .error (.httpError 400 "La cantidad debe ser mayor a 0")) := by
  simp [updateQuantityCtrl, h]

/-- C8, witness: the rejection theorem at quantity 0 on the concrete cart. -/
theorem c8_amended_witness :
    updateQuantityCtrl db0 7 1 0 =
      (db0, .error (.httpError 400 "La cantidad debe ser mayor a 0")) :=
  c8_amended db0 7 1 0 (by decide)

/-- C9, counterexample: `checkStock` on a product id that does not exist returns
the value `null` (`none`, falsy — treated as "no stock") and raises no error,
whereas the spec-modelled `hasStockSpec` fails with `NotFound`. -/
theorem c9_counterexample :
    checkStock dbNone 5 1 = none
    ∧ jsTruthy (checkStock dbNone 5 1) = false
    ∧ hasStockSpec dbNone 5 1 = .error (.httpError 404 "Producto no encontrado") := by
  decide

/-- C9, amended: for every store and missing product id, `checkStock` returns
`null` (`none`) — a falsy non-error result — instead of failing with
`NotFound`. -/
theorem c9_amended (db : DB) (pid : Nat) (q : Int) (h : findProduct db pid = none) :
    checkStock db pid q = none := by
  simp [checkStock, h]

/-- C9, witness: the amended theorem at the empty store. -/
theorem c9_amended_witness : checkStock dbNone 5 1 = none :=
  c9_amended dbNone 5 1 (by decide)

/-- C2: for every purchase run with a non-empty successful set (and a fresh
ticket code, without which nothing is persisted at all), the persisted ticket
satisfies exactly: `totals.subtotal = Σ (unit price × quantity)` over the
successful items, `totals.tax = subtotal × 21%`,
`totals.total = subtotal + tax + shipping − discount` with shipping and
discount equal to their default 0, and the top-level `amount` equals
`totals.total`. -/
theorem c2_ticket_totals (faults : Nat → Bool) (code : String) (db : DB) (u : Nat)
    (em : String) (cart : Cart) (entries : List CartEntry)
    (db1 : DB) (evs1 : List Event) (sr : StockResults)
    (hcart : findActiveByUser db u = some cart)
    (hne : cart.items.isEmpty = false)
    (hpop : populateCart db cart.items = some entries)
    (hsr : processStockForPurchase faults db entries = (db1, evs1, sr))
    (hsucc : sr.successful ≠ [])
    (hfresh : db.tickets.any (fun t => t.code == code) = false) :
    (processPurchase faults code db u em).2.2 =
        .ok ⟨some (purchasedTicket code u em sr), sr.successful, sr.failed, sr.total,
          generateMessage sr⟩
    ∧ (processPurchase faults code db u em).1.tickets =
        db.tickets ++ [purchasedTicket code u em sr]
    ∧ (purchasedTicket code u em sr).totals.subtotal =
        (sr.successful.map (fun s => s.product.price * (s.quantity : Rat))).sum
    ∧ (purchasedTicket code u em sr).totals.tax =
        (purchasedTicket code u em sr).totals.subtotal * ((21 : Rat) / 100)
    ∧ (purchasedTicket code u em sr).totals.shipping = 0
    ∧ (purchasedTicket code u em sr).totals.discount = 0
    ∧ (purchasedTicket code u em sr).totals.total =
        (purchasedTicket code u em sr).totals.subtotal
          + (purchasedTicket code u em sr).totals.tax
          + (purchasedTicket code u em sr).totals.shipping
          - (purchasedTicket code u em sr).totals.discount
    ∧ (purchasedTicket code u em sr).amount = (purchasedTicket code u em sr).totals.total := by
  have hmain := processPurchase_success_eq faults code db u em cart entries db1 evs1 sr
    hcart hne hpop hsr hsucc hfresh
  have htick : db1.tickets = db.tickets := by
    have h := processStock_tickets faults db entries
    rw [hsr] at h
    exact h
  have hsub : ∀ s ∈ sr.successful, s.subtotal = s.product.price * (s.quantity : Rat) := by
    intro s hs
    apply processStock_subtotals faults db entries
    rw [hsr]
    exact hs
  refine ⟨?_, ?_, ?_, rfl, rfl, rfl, rfl, rfl⟩
  · rw [hmain]
  · rw [hmain, updateCart_tickets]
    simp [htick]
  · simp only [purchasedTicket, calculateTotals, buildTicket, List.map_map]
    congr 1
    apply List.map_congr_left
    intro s hs
    simpa using hsub s hs

/-- C2, witness: the totals theorem applied to the concrete partial-success
scenario (A purchased, B failed). -/
theorem c2_ticket_totals_witness :
    (processPurchase faults0 "TICKET-X" db0 7 "a@b.c").2.2 =
        .ok ⟨some (purchasedTicket "TICKET-X" 7 "a@b.c" srw), srw.successful, srw.failed,
          srw.total, generateMessage srw⟩
    ∧ (processPurchase faults0 "TICKET-X" db0 7 "a@b.c").1.tickets =
        db0.tickets ++ [purchasedTicket "TICKET-X" 7 "a@b.c" srw]
    ∧ (purchasedTicket "TICKET-X" 7 "a@b.c" srw).totals.subtotal =
        (srw.successful.map (fun s => s.product.price * (s.quantity : Rat))).sum
    ∧ (purchasedTicket "TICKET-X" 7 "a@b.c" srw).totals.tax =
        (purchasedTicket "TICKET-X" 7 "a@b.c" srw).totals.subtotal * ((21 : Rat) / 100)
    ∧ (purchasedTicket "TICKET-X" 7 "a@b.c" srw).totals.shipping = 0
    ∧ (purchasedTicket "TICKET-X" 7 "a@b.c" srw).totals.discount = 0
    ∧ (purchasedTicket "TICKET-X" 7 "a@b.c" srw).totals.total =
        (purchasedTicket "TICKET-X" 7 "a@b.c" srw).totals.subtotal
          + (purchasedTicket "TICKET-X" 7 "a@b.c" srw).totals.tax
          + (purchasedTicket "TICKET-X" 7 "a@b.c" srw).totals.shipping
          - (purchasedTicket "TICKET-X" 7 "a@b.c" srw).totals.discount
    ∧ (purchasedTicket "TICKET-X" 7 "a@b.c" srw).amount =
        (purchasedTicket "TICKET-X" 7 "a@b.c" srw).totals.total :=
  c2_ticket_totals faults0 "TICKET-X" db0 7 "a@b.c" cart0 entries0 db1w evs1w srw
    (by decide) (by decide) (by decide) rfl (by decide) (by decide)

/-- C3: on a non-empty cart in which *every* line item fails stock resolution
(empty successful set), no ticket is created or persisted and nothing in the
store changes (the final store is the initial one and the mutation trace is
empty), and the controller answers with a 400 error carrying no ticket. -/
theorem c3_total_failure (faults : Nat → Bool) (code : String) (db : DB) (u : Nat)
    (em : String) (cart : Cart) (entries : List CartEntry)
    (db1 : DB) (evs1 : List Event) (sr : StockResults)
    (hcart : findActiveByUser db u = some cart)
    (hne : cart.items.isEmpty = false)
    (hpop : populateCart db cart.items = some entries)
    (hsr : processStockForPurchase faults db entries = (db1, evs1, sr))
    (hfail : sr.successful = []) :
    db1 = db ∧ evs1 = []
    ∧ processPurchase faults code db u em =
        (db, [], .ok ⟨none, sr.successful, sr.failed, sr.total, generateMessage sr⟩)
    ∧ purchaseCart faults code db u em =
        (db, [], .error (.httpError 400
          "No se pudo procesar la compra. Verifica que tengas productos en el carrito con stock disponible.")) := by
  have h0 := processStock_no_success faults db entries (by rw [hsr]; exact hfail)
  rw [hsr] at h0
  obtain ⟨hdb0, hevs0, -⟩ := h0
  have hdb : db1 = db := hdb0
  have hevs : evs1 = [] := hevs0
  have hlen : ¬ (0 < sr.successful.length) := by
    rw [hfail]
    simp
  have hproc : processPurchase faults code db u em =
      (db1, evs1, .ok ⟨none, sr.successful, sr.failed, sr.total, generateMessage sr⟩) := by
    simp [processPurchase, hcart, hne, hpop, hsr, hlen]
  refine ⟨hdb, hevs, ?_, ?_⟩
  · rw [hproc, hdb, hevs]
  · simp only [purchaseCart, hproc]
    simp [hdb, hevs]

/-- C3, witness: the total-failure theorem on a cart requesting one unit of an
out-of-stock product. -/
theorem c3_total_failure_witness :
    dbZ = dbZ ∧ ([] : List Event) = []
    ∧ processPurchase faults0 "T" dbZ 7 "a@b.c" =
        (dbZ, [], .ok ⟨none, srZ.successful, srZ.failed, srZ.total, generateMessage srZ⟩)
    ∧ purchaseCart faults0 "T" dbZ 7 "a@b.c" =
        (dbZ, [], .error (.httpError 400
          "No se pudo procesar la compra. Verifica que tengas productos en el carrito con stock disponible.")) :=
  c3_total_failure faults0 "T" dbZ 7 "a@b.c" cartZ entriesZ dbZ [] srZ
    (by decide) (by decide) (by decide) (by decide) (by decide)

/-- C4: for every purchase that yields a ticket, the purchased cart afterwards
holds exactly its failed line items — the carts of the final store are the initial
ones with the successful product ids filtered out of the purchased cart (other
carts untouched, quantities of retained lines unchanged), the retained entries
correspond one-to-one and in order to the recorded failed items (same title and
requested quantity, given the product ids of the cart are distinct, which the
controller maintains), and the mutation trace places the ticket save *before*
every cart removal. -/
theorem c4_cart_drain (faults : Nat → Bool) (code : String) (db : DB) (u : Nat)
    (em : String) (cart : Cart) (entries : List CartEntry)
    (db1 : DB) (evs1 : List Event) (sr : StockResults)
    (hcart : findActiveByUser db u = some cart)
    (hne : cart.items.isEmpty = false)
    (hpop : populateCart db cart.items = some entries)
    (hsr : processStockForPurchase faults db entries = (db1, evs1, sr))
    (hsucc : sr.successful ≠ [])
    (hfresh : db.tickets.any (fun t => t.code == code) = false)
    (hnd : (cart.items.map CartItem.productId).Nodup) :
    (processPurchase faults code db u em).1.carts =
        db.carts.map (fun c =>
          if c.cid == cart.cid then
            { c with items := c.items.filter (fun it =>
                !((sr.successful.map (fun s => s.product.pid)).contains it.productId)) }
          else c)
    ∧ (processPurchase faults code db u em).1.tickets =
        db.tickets ++ [purchasedTicket code u em sr]
    ∧ (entries.filter (fun e =>
          !((sr.successful.map (fun s => s.product.pid)).contains e.product.pid))).map
          (fun e => (e.product.title, e.quantity))
        = sr.failed.map (fun f => (f.product, f.requestedQuantity))
    ∧ (processPurchase faults code db u em).2.1 =
        evs1 ++ Event.ticketSaved code ::
          sr.successful.map (fun s => Event.cartRemoved cart.cid s.product.pid) := by
  have hmain := processPurchase_success_eq faults code db u em cart entries db1 evs1 sr
    hcart hne hpop hsr hsucc hfresh
  have hcarts1 : db1.carts = db.carts := by
    have h := processStock_carts faults db entries
    rw [hsr] at h
    exact h
  have htick : db1.tickets = db.tickets := by
    have h := processStock_tickets faults db entries
    rw [hsr] at h
    exact h
  refine ⟨?_, ?_, ?_, ?_⟩
  · rw [hmain, updateCart_carts]
    simp [hcarts1]
  · rw [hmain, updateCart_tickets]
    simp [htick]
  · have hnd2 : (entries.map (fun e => e.product.pid)).Nodup := by
      rw [populate_pids db cart.items entries hpop]
      exact hnd
    have h := failed_corresponds faults db entries hnd2
    rw [hsr] at h
    exact h
  · rw [hmain]

/-- C4, witness: the cart-drain theorem on the concrete partial-success
scenario. -/
theorem c4_cart_drain_witness :
    (processPurchase faults0 "TICKET-X" db0 7 "a@b.c").1.carts =
        db0.carts.map (fun c =>
          if c.cid == cart0.cid then
            { c with items := c.items.filter (fun it =>
                !((srw.successful.map (fun s => s.product.pid)).contains it.productId)) }
          else c)
    ∧ (processPurchase faults0 "TICKET-X" db0 7 "a@b.c").1.tickets =
        db0.tickets ++ [purchasedTicket "TICKET-X" 7 "a@b.c" srw]
    ∧ (entries0.filter (fun e =>
          !((srw.successful.map (fun s => s.product.pid)).contains e.product.pid))).map
          (fun e => (e.product.title, e.quantity))
        = srw.failed.map (fun f => (f.product, f.requestedQuantity))
    ∧ (processPurchase faults0 "TICKET-X" db0 7 "a@b.c").2.1 =
        evs1w ++ Event.ticketSaved "TICKET-X" ::
          srw.successful.map (fun s => Event.cartRemoved cart0.cid s.product.pid) :=
  c4_cart_drain faults0 "TICKET-X" db0 7 "a@b.c" cart0 entries0 db1w evs1w srw
    (by decide) (by decide) (by decide) rfl (by decide) (by decide) (by decide)

/-- C10: for every purchase with a non-empty successful set, the `total` field
returned by `processPurchase` is the *pre-tax* sum `Σ price × quantity` of the
successful items, while the `amount` of the persisted ticket is that sum plus 21%
tax; hence for a positive subtotal the returned `total` is strictly below
`ticket.amount`. -/
theorem c10_return_total_vs_amount (faults : Nat → Bool) (code : String) (db : DB)
    (u : Nat) (em : String) (cart : Cart) (entries : List CartEntry)
    (db1 : DB) (evs1 : List Event) (sr : StockResults)
    (hcart : findActiveByUser db u = some cart)
    (hne : cart.items.isEmpty = false)
    (hpop : populateCart db cart.items = some entries)
    (hsr : processStockForPurchase faults db entries = (db1, evs1, sr))
    (hsucc : sr.successful ≠ [])
    (hfresh : db.tickets.any (fun t => t.code == code) = false) :
    (processPurchase faults code db u em).2.2 =
        .ok ⟨some (purchasedTicket code u em sr), sr.successful, sr.failed, sr.total,
          generateMessage sr⟩
    ∧ sr.total = (sr.successful.map (fun s => s.product.price * (s.quantity : Rat))).sum
    ∧ (purchasedTicket code u em sr).amount = sr.total + sr.total * ((21 : Rat) / 100)
    ∧ (0 < sr.total → sr.total < (purchasedTicket code u em sr).amount) := by
  have hmain := processPurchase_success_eq faults code db u em cart entries db1 evs1 sr
    hcart hne hpop hsr hsucc hfresh
  have htot : sr.total = (sr.successful.map SuccessItem.subtotal).sum := by
    have h := processStock_total faults db entries
    rw [hsr] at h
    exact h
  have hsub : ∀ s ∈ sr.successful, s.subtotal = s.product.price * (s.quantity : Rat) := by
    intro s hs
    apply processStock_subtotals faults db entries
    rw [hsr]
    exact hs
  have hsubT : (purchasedTicket code u em sr).totals.subtotal =
      (sr.successful.map SuccessItem.subtotal).sum := by
    simp only [purchasedTicket, calculateTotals, buildTicket, List.map_map]
    congr 1
  have hamount : (purchasedTicket code u em sr).amount =
      sr.total + sr.total * ((21 : Rat) / 100) := by
    have h1 : (purchasedTicket code u em sr).amount =
        (purchasedTicket code u em sr).totals.subtotal
          + (purchasedTicket code u em sr).totals.subtotal * ((21 : Rat) / 100)
          + 0 - 0 := rfl
    rw [h1, hsubT, ← htot]
    ring
  refine ⟨by rw [hmain], ?_, hamount, ?_⟩
  · rw [htot]
    congr 1
    apply List.map_congr_left
    intro s hs
    exact hsub s hs
  · intro h
    rw [hamount]
    have hpos : 0 < sr.total * ((21 : Rat) / 100) := by
      apply mul_pos h
      norm_num
    linarith

/-- C10, witness: the pre-tax/with-tax divergence at the concrete scenario
(returned total 20, persisted amount 24.2). -/
theorem c10_return_total_vs_amount_witness :
    (processPurchase faults0 "TICKET-X" db0 7 "a@b.c").2.2 =
        .ok ⟨some (purchasedTicket "TICKET-X" 7 "a@b.c" srw), srw.successful, srw.failed,
          srw.total, generateMessage srw⟩
    ∧ srw.total = (srw.successful.map (fun s => s.product.price * (s.quantity : Rat))).sum
    ∧ (purchasedTicket "TICKET-X" 7 "a@b.c" srw).amount =
        srw.total + srw.total * ((21 : Rat) / 100)
    ∧ (0 < srw.total → srw.total < (purchasedTicket "TICKET-X" 7 "a@b.c" srw).amount) :=
  c10_return_total_vs_amount faults0 "TICKET-X" db0 7 "a@b.c" cart0 entries0 db1w evs1w srw
    (by decide) (by decide) (by decide) rfl (by decide) (by decide)
